import Mathlib

/-!
Verification development for the MPS-file reader and the solution-report
column-inference routine of the highs-js repository (src/src/post.js).

The JavaScript source is shallowly embedded: JS strings are Lean `String`,
JS `Map` (which preserves insertion order and updates in place) is an
association list `List (String x value)`, JS `Set` is an insertion-ordered
`List String`, JS numbers are the inductive `JsNum` (rationals plus the two
infinities and NaN; every numeric literal appearing in the source is exact
in binary floating point, so rational arithmetic agrees with the source on
all inputs considered here), and the mutation of the shared parse state and
model is explicit state passing.  Parser loops take a fuel argument; every
loop iteration in the source advances the line cursor by at least one, so
the fuel `lines.length + 1` supplied at every call site can never run out.
-/

set_option autoImplicit false

namespace Mps

/-- Whitespace test matching the characters the JS string `trim` and the
regex class backslash-s treat as blanks in the ASCII range (the inputs in
this development contain no non-ASCII blanks). -/
def isWsChar (c : Char) : Bool :=
  c == ' ' || c == '\t' || c == '\n' || c == '\r' || c == '\x0b' || c == '\x0c'

/-- Both-ends whitespace trim on a character list. -/
def trimChars (l : List Char) : List Char :=
  ((l.dropWhile isWsChar).reverse.dropWhile isWsChar).reverse

/-- JS String.prototype.trim. -/
def jsTrim (s : String) : String := ⟨trimChars s.data⟩

/-- JS String.prototype.trimEnd. -/
def jsTrimEnd (s : String) : String := ⟨(s.data.reverse.dropWhile isWsChar).reverse⟩

/-- JS String.prototype.substring for start at most end: the characters at
0-based positions from `a` inclusive to `b` exclusive, clamped to the
string length. -/
def jsSubstring (s : String) (a b : Nat) : String := ⟨(s.data.drop a).take (b - a)⟩

/-- JS String.prototype.startsWith. -/
def jsStartsWith (s pre : String) : Bool := pre.data.isPrefixOf s.data

/-- Splitter for the JS `split` on the regex matching an optional carriage
return followed by a newline, as used by modelFromMps on the input text.
`acc` holds the current piece in reverse. -/
def splitRNAux (acc : List Char) : List Char → List (List Char)
  | [] => [acc.reverse]
  | '\r' :: '\n' :: rest => acc.reverse :: splitRNAux [] rest
  | '\n' :: rest => acc.reverse :: splitRNAux [] rest
  | c :: rest => splitRNAux (c :: acc) rest

/-- The line list of an MPS document, as produced in modelFromMps. -/
def splitLines (s : String) : List String :=
  (splitRNAux [] s.data).map (fun l => ⟨l⟩)

/-! Field extractors (source lines 48 to 53). -/

def field1 (line : String) : String := jsTrim (jsSubstring line 1 3)

def field2 (line : String) : String := jsTrim (jsSubstring line 4 12)

def field3 (line : String) : String := jsTrim (jsSubstring line 14 22)

def field4 (line : String) : String := jsTrim (jsSubstring line 24 36)

def field5 (line : String) : String := jsTrim (jsSubstring line 39 47)

def field6 (line : String) : String := jsTrim (jsSubstring line 49 61)

/-! The JS number model.  Finite values are exact rationals in lowest terms;
every numeric literal the source manipulates is exact in binary floating
point and no rounding occurs on the operations the source performs on the
inputs considered here, so this model agrees with JS number semantics.
A hand-rolled fraction type is used instead of Mathlib rationals because
its arithmetic reduces inside the kernel, letting concrete runs of the
parser be evaluated by decide. -/

/-- An exact fraction; all values built by this development are in lowest
terms with a positive denominator, because every constructor call goes through
`Frac.norm`. -/
structure Frac where
  num : Int
  den : Nat
deriving DecidableEq, Repr

/-- Normalize a fraction to lowest terms (the denominator is never zero at
any call site). -/
def Frac.norm (n : Int) (d : Nat) : Frac :=
  let g := Int.gcd n (Int.ofNat d)
  if g = 0 then ⟨0, 1⟩ else ⟨n / (g : Int), d / g⟩

/-- The fraction denoting an integer. -/
def fracInt (n : Int) : Frac := ⟨n, 1⟩

/-- A JS number as the source manipulates them: a finite rational, one of
the two infinities, or NaN. -/
inductive JsNum where
  | nan : JsNum
  | negInf : JsNum
  | posInf : JsNum
  | num : Frac → JsNum
deriving DecidableEq, Repr

/-- JS Number.isNaN. -/
def numberIsNaN : JsNum → Bool
  | JsNum.nan => true
  | _ => false

/-- JS Math.abs. -/
def jsAbs : JsNum → JsNum
  | JsNum.nan => JsNum.nan
  | JsNum.negInf => JsNum.posInf
  | JsNum.posInf => JsNum.posInf
  | JsNum.num q => JsNum.num ⟨|q.num|, q.den⟩

/-- JS addition on numbers. -/
def jsAdd : JsNum → JsNum → JsNum
  | JsNum.nan, _ => JsNum.nan
  | _, JsNum.nan => JsNum.nan
  | JsNum.posInf, JsNum.negInf => JsNum.nan
  | JsNum.negInf, JsNum.posInf => JsNum.nan
  | JsNum.posInf, _ => JsNum.posInf
  | _, JsNum.posInf => JsNum.posInf
  | JsNum.negInf, _ => JsNum.negInf
  | _, JsNum.negInf => JsNum.negInf
  | JsNum.num a, JsNum.num b =>
    JsNum.num (Frac.norm (a.num * (b.den : Int) + b.num * (a.den : Int)) (a.den * b.den))

/-- JS subtraction on numbers. -/
def jsSub : JsNum → JsNum → JsNum
  | JsNum.nan, _ => JsNum.nan
  | _, JsNum.nan => JsNum.nan
  | JsNum.posInf, JsNum.posInf => JsNum.nan
  | JsNum.negInf, JsNum.negInf => JsNum.nan
  | JsNum.posInf, _ => JsNum.posInf
  | JsNum.negInf, _ => JsNum.negInf
  | JsNum.num _, JsNum.posInf => JsNum.negInf
  | JsNum.num _, JsNum.negInf => JsNum.posInf
  | JsNum.num a, JsNum.num b =>
    JsNum.num (Frac.norm (a.num * (b.den : Int) - b.num * (a.den : Int)) (a.den * b.den))

/-- JS strict less-than on numbers (false whenever NaN is involved). -/
def jsLt : JsNum → JsNum → Bool
  | JsNum.nan, _ => false
  | _, JsNum.nan => false
  | JsNum.negInf, JsNum.negInf => false
  | JsNum.negInf, _ => true
  | _, JsNum.negInf => false
  | JsNum.posInf, _ => false
  | _, JsNum.posInf => true
  | JsNum.num a, JsNum.num b => decide (a.num * (b.den : Int) < b.num * (a.den : Int))

/-! A model of the JS parseFloat builtin, restricted to the shapes the MPS
fields use: optional leading whitespace, an optional sign, decimal digits
with an optional fractional part, longest valid prefix, NaN when no digit
is found.  Exponent suffixes and the Infinity literal, which parseFloat
would also accept, are not modelled; no input in this development and no
ordinary MPS numeric field uses them. -/

def takeDigits : List Char → List Nat × List Char
  | [] => ([], [])
  | c :: rest =>
    if c.isDigit then
      let p := takeDigits rest
      ((c.toNat - 48) :: p.1, p.2)
    else ([], c :: rest)

def natOfDigits (ds : List Nat) : Nat := List.foldl (fun a d => 10 * a + d) 0 ds

/-- The exact value of a parsed decimal: integer digits, fraction digits
and a sign. -/
def fracOfParts (sign : Bool) (intDs fracDs : List Nat) : Frac :=
  let scale : Nat := 10 ^ fracDs.length
  let mag : Nat := natOfDigits intDs * scale + natOfDigits fracDs
  let n : Int := if sign then -(mag : Int) else (mag : Int)
  Frac.norm n scale

/-- Model of JS parseFloat (see the note above). -/
def parseFloat (s : String) : JsNum :=
  let l := s.data.dropWhile isWsChar
  let sl : Bool × List Char :=
    match l with
    | '-' :: r => (true, r)
    | '+' :: r => (false, r)
    | _ => (false, l)
  let ip := takeDigits sl.2
  match ip.2 with
  | '.' :: r =>
    let fp := takeDigits r
    if ip.1.isEmpty && fp.1.isEmpty then JsNum.nan
    else JsNum.num (fracOfParts sl.1 ip.1 fp.1)
  | _ =>
    if ip.1.isEmpty then JsNum.nan else JsNum.num (fracOfParts sl.1 ip.1 [])

/-! Insertion-ordered maps and sets, with the JS Map and Set semantics:
`set` overwrites in place when the key exists and appends otherwise,
`add` appends when the element is new. -/

def alGet {α : Type} : List (String × α) → String → Option α
  | [], _ => none
  | (k, v) :: rest, key => if k = key then some v else alGet rest key

def alHas {α : Type} (m : List (String × α)) (k : String) : Bool := (alGet m k).isSome

def alSet {α : Type} : List (String × α) → String → α → List (String × α)
  | [], key, v => [(key, v)]
  | (k, w) :: rest, key, v =>
    if k = key then (k, v) :: rest else (k, w) :: alSet rest key v

def setAdd (s : List String) (x : String) : List String :=
  if s.contains x then s else s ++ [x]

theorem alGet_alSet_self {α : Type} (m : List (String × α)) (k : String) (v : α) :
    alGet (alSet m k v) k = some v := by
  induction m with
  | nil => simp [alSet, alGet]
  | cons p rest ih =>
    obtain ⟨a, b⟩ := p
    by_cases h : a = k
    · simp [alSet, alGet, h]
    · simp [alSet, alGet, h, ih]

/-! The model being built (the object literal created in modelFromMps,
source lines 32 to 40) and the parse state (lines 26 to 30). -/

structure Model where
  name : String
  direction : String
  objective : Option String
  constraints : List (String × (JsNum × JsNum))
  /-- Called variables in the source; renamed because that word is a
  reserved keyword in Lean. -/
  vars : List (String × List (String × JsNum))
  integers : List String
  binaries : List String
  bounds : List (String × (JsNum × JsNum))
deriving DecidableEq, Repr

structure St where
  lines : List String
  index : Nat
  constraintTypes : List (String × String)
  model : Model
deriving DecidableEq, Repr

/-- Source notSectionEnd (line 63): the line exists and starts with a
blank. -/
def notSectionEnd : Option String → Bool
  | some l => jsStartsWith l " "
  | none => false

/-- Scanner behind nextLine: the first line at position at least `i` that
does not start with an asterisk, together with its position. -/
def scanNC : List String → Nat → Option (Nat × String)
  | [], _ => none
  | l :: rest, i => if jsStartsWith l "*" then scanNC rest (i + 1) else some (i, l)

/-- Source nextLine (lines 65 to 73): advance the cursor to the next
non-comment line after the current one and return it; on end of input the
cursor is left where it was and undefined is returned. -/
def nextLine (st : St) : St × Option String :=
  match scanNC (st.lines.drop (st.index + 1)) (st.index + 1) with
  | some (j, l) => ({ st with index := j }, some l)
  | none => (st, none)

/-- Source readSection (line 75): the current line with trailing blanks
stripped, or undefined past the end of input. -/
def readSection (st : St) : Option String := (st.lines.get? st.index).map jsTrimEnd

/-- Source sectionErr (lines 77 to 78). -/
def sectionErrMsg (expected : String) (sect : Option String) : String :=
  "Expected section " ++ expected ++ " but got " ++
    (match sect with
     | none => "end of file"
     | some s => "\x27" ++ s ++ "\x27")

/-- Source expectSection (lines 80 to 83). -/
def expectSection (st : St) (sect : String) : Option String :=
  match readSection st with
  | some name => if name = sect then none else some (sectionErrMsg sect (some name))
  | none => some (sectionErrMsg sect none)

/-- Message unreachable on any run: every parser loop advances the cursor
by at least one line per iteration and is given fuel exceeding the line
count. -/
def fuelErr : String := "internal: fuel exhausted"

/-- Source setBounds (lines 269 to 273): ensure a bound entry exists,
defaulting to the pair of zero and plus infinity, then overwrite the
components for which the supplied value is not NaN. -/
def setBounds (m : Model) (name : String) (lower upper : JsNum) : Model :=
  let bounds0 :=
    if alHas m.bounds name then m.bounds
    else alSet m.bounds name (JsNum.num (fracInt 0), JsNum.posInf)
  let bnds := (alGet bounds0 name).getD (JsNum.num (fracInt 0), JsNum.posInf)
  let bnds := if numberIsNaN lower then bnds else (lower, bnds.2)
  let bnds := if numberIsNaN upper then bnds else (bnds.1, upper)
  { m with bounds := alSet bounds0 name bnds }

/-- Loop body state transitions of readBounds (lines 275 to 317);
terminates by expecting the ENDATA header. -/
def boundsLoop : Nat → St → St × Option String
  | 0, st => (st, some fuelErr)
  | f + 1, st =>
    let p := nextLine st
    let st1 := p.1
    match p.2 with
    | none => (st1, expectSection st1 "ENDATA")
    | some line =>
      if jsStartsWith line " " = false then (st1, expectSection st1 "ENDATA")
      else
        let type := field1 line
        let col := field3 line
        if col = "" then (st1, some "Missing column name")
        else if alHas st1.model.vars col = false then
          (st1, some ("The column \x27" ++ col ++ "\x27 was not defined in the COLUMNS section"))
        else
          let needsVal := (["LO", "UP", "FX", "LI", "UI"] : List String).contains type
          let value := field4 line
          if needsVal && (value == "") then (st1, some "Missing bound value")
          else if needsVal && numberIsNaN (parseFloat value) then
            (st1, some ("Failed to parse number \x27" ++ value ++ "\x27"))
          else
            let val := if needsVal then parseFloat value else JsNum.nan
            match type with
            | "LO" => boundsLoop f { st1 with model := setBounds st1.model col val JsNum.posInf }
            | "UP" => boundsLoop f { st1 with model := setBounds st1.model col (JsNum.num (fracInt 0)) val }
            | "FX" => boundsLoop f { st1 with model := setBounds st1.model col val val }
            | "FR" => boundsLoop f { st1 with model := setBounds st1.model col JsNum.negInf JsNum.posInf }
            | "MI" => boundsLoop f { st1 with model := setBounds st1.model col JsNum.negInf (JsNum.num (fracInt 0)) }
            | "PL" => boundsLoop f { st1 with model := setBounds st1.model col (JsNum.num (fracInt 0)) JsNum.posInf }
            | "BV" =>
              boundsLoop f { st1 with model := { st1.model with binaries := setAdd st1.model.binaries col } }
            | "LI" =>
              let m1 := { st1.model with integers := setAdd st1.model.integers col }
              boundsLoop f { st1 with model := setBounds m1 col val JsNum.posInf }
            | "UI" =>
              let m1 := { st1.model with integers := setAdd st1.model.integers col }
              boundsLoop f { st1 with model := setBounds m1 col (JsNum.num (fracInt 0)) val }
            | "SC" => (st1, some "SC bound type is unsupported")
            | "" => (st1, some "Missing bound type")
            | other => (st1, some ("Unexpected bound type \x27" ++ other ++ "\x27"))

/-- Source readBounds (lines 275 to 317). -/
def readBounds (st : St) : St × Option String := boundsLoop (st.lines.length + 1) st

/-- Source addRange (lines 226 to 242). -/
def addRange (st : St) (row value : String) : St × Option String :=
  if row = "" then (st, some "Missing row name")
  else if value = "" then (st, some "Missing range value")
  else
    match alGet st.constraintTypes row with
    | none => (st, some ("The row \x27" ++ row ++ "\x27 was not defined in the ROWS section"))
    | some type =>
      let val := parseFloat value
      if numberIsNaN val then (st, some ("Failed to parse number \x27" ++ value ++ "\x27"))
      else
        let bounds := (alGet st.model.constraints row).getD (JsNum.nan, JsNum.nan)
        let bounds :=
          if type == "L" || (type == "E" && jsLt val (JsNum.num (fracInt 0))) then
            (jsSub bounds.2 (jsAbs val), bounds.2)
          else bounds
        let bounds :=
          if type == "G" || (type == "E" && jsLt (JsNum.num (fracInt 0)) val) then
            (bounds.1, jsAdd bounds.1 (jsAbs val))
          else bounds
        ({ st with model := { st.model with constraints := alSet st.model.constraints row bounds } },
         none)

/-- Section dispatch at the end of readRanges (lines 260 to 266). -/
def rangesEnd (st : St) : St × Option String :=
  match readSection st with
  | some "BOUNDS" => readBounds st
  | some "ENDATA" => (st, none)
  | other => (st, some (sectionErrMsg "BOUNDS or ENDATA" other))

/-- Loop of readRanges (lines 244 to 258). -/
def rangesLoop : Nat → St → St × Option String
  | 0, st => (st, some fuelErr)
  | f + 1, st =>
    let p := nextLine st
    let st1 := p.1
    match p.2 with
    | none => rangesEnd st1
    | some line =>
      if jsStartsWith line " " = false then rangesEnd st1
      else
        match addRange st1 (field3 line) (field4 line) with
        | (st2, some e) => (st2, some e)
        | (st2, none) =>
          let name2 := field5 line
          let value2 := field6 line
          if name2 ≠ "" ∨ value2 ≠ "" then
            match addRange st2 name2 value2 with
            | (st3, some e) => (st3, some e)
            | (st3, none) => rangesLoop f st3
          else rangesLoop f st2

/-- Source readRanges (lines 244 to 267). -/
def readRanges (st : St) : St × Option String := rangesLoop (st.lines.length + 1) st

/-- Source addConstraint (lines 179 to 195).  The constraint fetched for a
row always exists, because every row in constraintTypes was given an entry
in constraints by readRows; the default pair is never read. -/
def addConstraint (st : St) (row value : String) : St × Option String :=
  if row = "" then (st, some "Missing row name")
  else if value = "" then (st, some "Missing rhs value")
  else
    match alGet st.constraintTypes row with
    | none => (st, some ("The row \x27" ++ row ++ "\x27 was not defined in the ROWS section"))
    | some type =>
      let val := parseFloat value
      if numberIsNaN val then (st, some ("Failed to parse number \x27" ++ value ++ "\x27"))
      else
        let c := (alGet st.model.constraints row).getD (JsNum.nan, JsNum.nan)
        let c := if type == "L" || type == "E" then (c.1, val) else c
        let c := if type == "G" || type == "E" then (val, c.2) else c
        ({ st with model := { st.model with constraints := alSet st.model.constraints row c } },
         none)

/-- Section dispatch at the end of readRHS (lines 216 to 223). -/
def rhsEnd (st : St) : St × Option String :=
  match readSection st with
  | some "RANGES" => readRanges st
  | some "BOUNDS" => readBounds st
  | some "ENDATA" => (st, none)
  | other => (st, some (sectionErrMsg "RANGES, BOUNDS, or ENDATA" other))

/-- Loop of readRHS (lines 201 to 214). -/
def rhsLoop : Nat → St → St × Option String
  | 0, st => (st, some fuelErr)
  | f + 1, st =>
    let p := nextLine st
    let st1 := p.1
    match p.2 with
    | none => rhsEnd st1
    | some line =>
      if jsStartsWith line " " = false then rhsEnd st1
      else
        match addConstraint st1 (field3 line) (field4 line) with
        | (st2, some e) => (st2, some e)
        | (st2, none) =>
          let name2 := field5 line
          let value2 := field6 line
          if name2 ≠ "" ∨ value2 ≠ "" then
            match addConstraint st2 name2 value2 with
            | (st3, some e) => (st3, some e)
            | (st3, none) => rhsLoop f st3
          else rhsLoop f st2

/-- Source readRHS (lines 197 to 224). -/
def readRHS (st : St) : St × Option String :=
  match expectSection st "RHS" with
  | some e => (st, some e)
  | none => rhsLoop (st.lines.length + 1) st

/-- Source addCoefficient (lines 115 to 127), acting on the per-column
accumulator map; `ct` is the constraint-type registry of the parse
state. -/
def addCoefficient (ct : List (String × String)) (varMap : List (String × JsNum))
    (row value : String) : Except String (List (String × JsNum)) :=
  if row = "" then Except.error "Missing row name"
  else if value = "" then Except.error "Missing coefficient value"
  else if alHas ct row = false then
    Except.error ("The row \x27" ++ row ++ "\x27 was not defined in the ROWS section")
  else if alHas varMap row then
    Except.error ("The coefficient for row \x27" ++ row ++ "\x27 was previously set for this column")
  else
    let val := parseFloat value
    if numberIsNaN val then Except.error ("Failed to parse number \x27" ++ value ++ "\x27")
    else Except.ok (alSet varMap row val)

/-- The optional second coefficient pair of a COLUMNS data line, read from
fields five and six (source lines 162 to 167): skipped when both fields
are empty, otherwise handed to addCoefficient. -/
def secondPair (ct : List (String × String)) (varMap : List (String × JsNum))
    (line : String) : Except String (List (String × JsNum)) :=
  let name2 := field5 line
  let value2 := field6 line
  if name2 ≠ "" ∨ value2 ≠ "" then addCoefficient ct varMap name2 value2
  else Except.ok varMap

/-- The inner do-while of readColumns (lines 156 to 170): consume the run
of consecutive lines carrying the same column name, returning the filled
accumulator and the first line after the run (still the loop variable of
the outer loop). -/
def colInner : Nat → St → List (String × JsNum) → String → String →
    St × Except String (List (String × JsNum) × Option String)
  | 0, st, _, _, _ => (st, Except.error fuelErr)
  | f + 1, st, varMap, name, line =>
    match addCoefficient st.constraintTypes varMap (field3 line) (field4 line) with
    | Except.error e => (st, Except.error e)
    | Except.ok varMap1 =>
      match secondPair st.constraintTypes varMap1 line with
      | Except.error e => (st, Except.error e)
      | Except.ok varMap2 =>
        let p := nextLine st
        let st1 := p.1
        match p.2 with
        | some line2 =>
          if jsStartsWith line2 " " && (field2 line2 == name) then
            colInner f st1 varMap2 name line2
          else (st1, Except.ok (varMap2, some line2))
        | none => (st1, Except.ok (varMap2, none))

/-- Outer while of readColumns (lines 133 to 174) with the integer-marker
flag; falls through to readRHS when the section ends. -/
def colsLoop : Nat → St → Bool → Option String → St × Option String
  | 0, st, _, _ => (st, some fuelErr)
  | f + 1, st, integerMarked, line? =>
    match line? with
    | none => readRHS st
    | some line =>
      if jsStartsWith line " " = false then readRHS st
      else
        if field3 line = "\x27MARKER\x27" then
          let marker := field4 line
          if marker = "\x27INTORG\x27" then
            let p := nextLine st
            colsLoop f p.1 true p.2
          else if marker = "\x27INTEND\x27" then
            let p := nextLine st
            colsLoop f p.1 false p.2
          else (st, some ("Unexpected MARKER \x27" ++ marker ++ "\x27"))
        else
          let name := field2 line
          if name = "" then (st, some "Missing column name")
          else if alHas st.model.vars name then
            (st, some ("Values for the column \x27" ++ name ++
              "\x27 were previously provided -- all values for a column must come consecutively"))
          else
            match colInner (st.lines.length + 1) st [] name line with
            | (st1, Except.error e) => (st1, some e)
            | (st1, Except.ok (varMap, line2?)) =>
              let m := st1.model
              let v1 := alSet m.vars name varMap
              let i1 := if integerMarked then setAdd m.integers name else m.integers
              let m := { m with vars := v1, integers := i1 }
              colsLoop f { st1 with model := m } integerMarked line2?

/-- Source readColumns (lines 129 to 177). -/
def readColumns (st : St) : St × Option String :=
  match expectSection st "COLUMNS" with
  | some e => (st, some e)
  | none =>
    let p := nextLine st
    colsLoop (p.1.lines.length + 1) p.1 false p.2

/-- Loop of readRows (lines 89 to 110). -/
def rowsLoop : Nat → St → St × Option String
  | 0, st => (st, some fuelErr)
  | f + 1, st =>
    let p := nextLine st
    let st1 := p.1
    match p.2 with
    | none => readColumns st1
    | some line =>
      if jsStartsWith line " " = false then readColumns st1
      else
        let name := field2 line
        if name = "" then (st1, some "Missing row name")
        else if alHas st1.constraintTypes name then
          (st1, some ("The row \x27" ++ name ++ "\x27 was already defined"))
        else
          let type := field1 line
          let cont : Option (Model) :=
            match type with
            | "L" =>
              let c := alSet st1.model.constraints name (JsNum.negInf, JsNum.num (fracInt 0))
              some { st1.model with constraints := c }
            | "G" =>
              let c := alSet st1.model.constraints name (JsNum.num (fracInt 0), JsNum.posInf)
              some { st1.model with constraints := c }
            | "E" =>
              let c := alSet st1.model.constraints name (JsNum.num (fracInt 0), JsNum.num (fracInt 0))
              some { st1.model with constraints := c }
            | "N" =>
              let ob := match st1.model.objective with
                | none => some name
                | o => o
              let c := alSet st1.model.constraints name (JsNum.negInf, JsNum.posInf)
              some { st1.model with objective := ob, constraints := c }
            | _ => none
          match cont with
          | some m =>
            let ct := alSet st1.constraintTypes name type
            rowsLoop f { st1 with model := m, constraintTypes := ct }
          | none =>
            if type = "" then (st1, some "Missing row type")
            else (st1, some ("Unexpected row type \x27" ++ type ++ "\x27"))

/-- Source readRows (lines 85 to 113). -/
def readRows (st : St) : St × Option String :=
  match expectSection st "ROWS" with
  | some e => (st, some e)
  | none => rowsLoop (st.lines.length + 1) st

/-- Source readName (lines 55 to 61). -/
def readName (st : St) : St × Option String :=
  match List.findIdx? (fun l => jsStartsWith l "NAME") st.lines with
  | none => (st, some "No NAME section was found")
  | some i =>
    let m1 := { st.model with name := field3 (st.lines.getD i "") }
    let st1 := { st with index := i + 1, model := m1 }
    readRows st1

/-- Source modelFromMps (lines 24 to 46): on error the thrown message
carries the one-based line number of the cursor; here the number and the
message are returned as a structured pair. -/
def modelFromMps (mps : String) (direction : String) : Except (Nat × String) Model :=
  let st : St :=
    { lines := splitLines mps,
      index := 0,
      constraintTypes := [],
      model :=
        { name := "", direction := direction, objective := none, constraints := [],
          vars := [], integers := [], binaries := [], bounds := [] } }
  match readName st with
  | (st1, some e) => Except.error (st1.index + 1, e)
  | (st1, none) => Except.ok st1.model

/-! The solution-report column inference (source headersForNonEmptyColumns,
lines 519 to 527). -/

/-- The maximal runs of non-whitespace characters of a line with their
0-based start offsets, as produced by matchAll with the regex matching one
or more non-space characters.  The accumulator carries the run in progress
(start offset and characters in reverse). -/
def tokensAux : List Char → Nat → Option (Nat × List Char) → List (Nat × List Char)
  | [], _, none => []
  | [], _, some (st, run) => [(st, run.reverse)]
  | c :: rest, i, none =>
    if isWsChar c then tokensAux rest (i + 1) none
    else tokensAux rest (i + 1) (some (i, [c]))
  | c :: rest, i, some (st, run) =>
    if isWsChar c then (st, run.reverse) :: tokensAux rest (i + 1) none
    else tokensAux rest (i + 1) (some (st, c :: run))

/-- The regex matches of a header line: pairs of a start offset and the
matched text. -/
def hdrMatches (s : String) : List (Nat × String) :=
  (tokensAux s.data 0 none).map (fun p => (p.1, String.mk p.2))

/-- Whether the character of `s` at 0-based position `i` exists and equals
`c`; JS indexing past the end yields undefined, which compares unequal to
every character. -/
def charAtIs (s : String) (i : Nat) (c : Char) : Bool :=
  match s.data.get? i with
  | some d => d == c
  | none => false

/-- Source headersForNonEmptyColumns (lines 519 to 527): keep a header
token when the data-line character below its first position or the one
below its last position is not a blank. -/
def headersForNonEmptyColumns (headerLine firstDataLine : String) : List String :=
  ((hdrMatches headerLine).filter (fun m =>
      !(charAtIs firstDataLine m.1 ' ') || !(charAtIs firstDataLine (m.1 + m.2.length - 1) ' '))).map
    (fun m => m.2)

/-! Concrete MPS documents used by the theorems below.  Data lines place
the row and column names and the numeric values exactly at the character
positions the extractors read: name fields start at positions 4 and 14,
value fields at positions 24 and 49, the second row name at position 39. -/

/-- The minimal document of the end-to-end scenario: one objective row,
one L row, one column with two coefficients, one RHS entry. -/
def mpsDocC1 : String :=
  "NAME          test\nROWS\n N  COST\n L  LIM1\nCOLUMNS\n    X         COST      1.0            LIM1      1.0\nRHS\n    RHS       LIM1      10.0\nENDATA"

/-- The model that parsing mpsDocC1 produces. -/
def c1Model : Model :=
  { name := "test", direction := "minimize", objective := some "COST",
    constraints := [("COST", (JsNum.negInf, JsNum.posInf)), ("LIM1", (JsNum.negInf, JsNum.num (fracInt 10)))],
    vars := [("X", [("COST", JsNum.num (fracInt 1)), ("LIM1", JsNum.num (fracInt 1))])],
    integers := [], binaries := [], bounds := [] }

/-- C1: the minimal valid MPS document with NAME test, rows N COST and
L LIM1, column X carrying COST 1.0 and LIM1 1.0, and RHS LIM1 10.0 parses
successfully to a model whose constraints map LIM1 to the pair of minus
infinity and 10, whose objective is COST, whose variables map X to the
coefficients COST 1 and LIM1 1, and whose bounds mapping is empty. -/
theorem c1_end_to_end :
    modelFromMps mpsDocC1 "minimize" = Except.ok c1Model ∧
    alGet c1Model.constraints "LIM1" = some (JsNum.negInf, JsNum.num (fracInt 10)) ∧
    c1Model.objective = some "COST" ∧
    alGet c1Model.vars "X" = some [("COST", JsNum.num (fracInt 1)), ("LIM1", JsNum.num (fracInt 1))] ∧
    c1Model.bounds = [] :=
  ⟨rfl, rfl, rfl, rfl, rfl⟩

/-! The field windows exactly as the claim words them, for comparison with
the extractors translated from the source.  These definitions follow the
claim text, not the source: field1 characters 1 to 3, field2 characters 3
to 11, field3 characters 13 to 21, field4 characters 23 to 35, field5
characters 38 to 46, field6 characters 48 to 60, each half-open and
0-based, then trimmed. -/

def claimField1 (line : String) : String := jsTrim (jsSubstring line 1 3)

def claimField2 (line : String) : String := jsTrim (jsSubstring line 3 11)

def claimField3 (line : String) : String := jsTrim (jsSubstring line 13 21)

def claimField4 (line : String) : String := jsTrim (jsSubstring line 23 35)

def claimField5 (line : String) : String := jsTrim (jsSubstring line 38 46)

def claimField6 (line : String) : String := jsTrim (jsSubstring line 48 60)

/-- C2 counterexample: on the line 0123456789AB the source field2, which
reads characters 4 to 12, returns 456789AB, while the window the claim
states, characters 3 to 11, would return 3456789A; the claimed ranges are
therefore wrong for field2 (and likewise for fields 3 to 6, each shifted
down by one). -/
theorem c2_counterexample : field2 "0123456789AB" ≠ claimField2 "0123456789AB" := by decide

/-- C2 amended: for every line the six extractors return the trimmed
contents of the 0-based half-open character ranges 1 to 3, 4 to 12, 14 to
22, 24 to 36, 39 to 47 and 49 to 61 respectively (the claim had stated
3 to 11, 13 to 21, 23 to 35, 38 to 46 and 48 to 60 for fields 2 to 6). -/
theorem c2_amended (line : String) :
    field1 line = jsTrim ⟨(line.data.drop 1).take 2⟩ ∧
    field2 line = jsTrim ⟨(line.data.drop 4).take 8⟩ ∧
    field3 line = jsTrim ⟨(line.data.drop 14).take 8⟩ ∧
    field4 line = jsTrim ⟨(line.data.drop 24).take 12⟩ ∧
    field5 line = jsTrim ⟨(line.data.drop 39).take 8⟩ ∧
    field6 line = jsTrim ⟨(line.data.drop 49).take 12⟩ :=
  ⟨rfl, rfl, rfl, rfl, rfl, rfl⟩

/-- A document whose BOUNDS section gives column X the entry LO 5.0 and
then the entry UP 10.0. -/
def mpsDocC3 : String :=
  "NAME          test\nROWS\n N  COST\nCOLUMNS\n    X         COST      1.0\nRHS\nBOUNDS\n LO BND       X         5.0\n UP BND       X         10.0\nENDATA"

/-- C3, behaviour of the code at the failing input: after LO 5.0 followed
by UP 10.0 for the same column, the parse ends with the bound pair
(0, 10), not (5, 10) as the claim requires, because the UP dispatch calls
setBounds with an explicit lower argument of 0 (and the LO dispatch with
an explicit upper argument of plus infinity), so each of the two entries
overwrites the side the other had set. -/
theorem c3_lo_up_clobbered :
    Except.map (fun m => alGet m.bounds "X") (modelFromMps mpsDocC3 "minimize") =
      Except.ok (some (JsNum.num (fracInt 0), JsNum.num (fracInt 10))) := rfl

/-- A document whose BOUNDS section gives column X only the entry
UP with value -5.0. -/
def mpsDocC4 : String :=
  "NAME          test\nROWS\n N  COST\nCOLUMNS\n    X         COST      1.0\nRHS\nBOUNDS\n UP BND       X         -5.0\nENDATA"

/-- C4: a column whose only BOUNDS entry is UP -5.0 ends the parse with
the bound pair (0, -5): the lower bound stays at its default 0 and is not
widened to minus infinity. -/
theorem c4_up_negative :
    Except.map (fun m => alGet m.bounds "X") (modelFromMps mpsDocC4 "minimize") =
      Except.ok (some (JsNum.num (fracInt 0), JsNum.num (fracInt (-5)))) := rfl

/-- C5: for any parse state in which a row is registered with type E and
currently has the bound pair (10, 10), processing a RANGES entry of value
4 for it succeeds and sets the pair to (10, 14), and processing one of
value -4 instead succeeds and sets the pair to (6, 10). -/
theorem c5_ranges (st : St) (row : String) (h1 : row ≠ "")
    (h2 : alGet st.constraintTypes row = some "E")
    (h3 : alGet st.model.constraints row = some (JsNum.num (fracInt 10), JsNum.num (fracInt 10))) :
    ((addRange st row "4").2 = none ∧
      alGet (addRange st row "4").1.model.constraints row =
        some (JsNum.num (fracInt 10), JsNum.num (fracInt 14))) ∧
    ((addRange st row "-4").2 = none ∧
      alGet (addRange st row "-4").1.model.constraints row =
        some (JsNum.num (fracInt 6), JsNum.num (fracInt 10))) := by
  have e4 : addRange st row "4" =
      ({ st with model := { st.model with constraints := alSet st.model.constraints row (JsNum.num (fracInt 10), JsNum.num (fracInt 14)) } }, none) := by
    unfold addRange
    rw [if_neg h1, if_neg (show ¬ ("4" : String) = "" by decide), h2, h3]
    rfl
  have e4n : addRange st row "-4" =
      ({ st with model := { st.model with constraints := alSet st.model.constraints row (JsNum.num (fracInt 6), JsNum.num (fracInt 10)) } }, none) := by
    unfold addRange
    rw [if_neg h1, if_neg (show ¬ ("-4" : String) = "" by decide), h2, h3]
    rfl
  refine ⟨⟨?_, ?_⟩, ?_, ?_⟩
  · rw [e4]
  · rw [e4]; exact alGet_alSet_self _ _ _
  · rw [e4n]
  · rw [e4n]; exact alGet_alSet_self _ _ _

/-- A concrete parse state for the C5 witness: row R of type E with the
bound pair (10, 10). -/
def stC5 : St :=
  { lines := [], index := 0, constraintTypes := [("R", "E")],
    model :=
      { name := "", direction := "", objective := none,
        constraints := [("R", (JsNum.num (fracInt 10), JsNum.num (fracInt 10)))],
        vars := [], integers := [], binaries := [], bounds := [] } }

/-- C5 witness: the RANGES arithmetic at the concrete state stC5. -/
theorem c5_ranges_witness :
    ((addRange stC5 "R" "4").2 = none ∧
      alGet (addRange stC5 "R" "4").1.model.constraints "R" =
        some (JsNum.num (fracInt 10), JsNum.num (fracInt 14))) ∧
    ((addRange stC5 "R" "-4").2 = none ∧
      alGet (addRange stC5 "R" "-4").1.model.constraints "R" =
        some (JsNum.num (fracInt 6), JsNum.num (fracInt 10))) :=
  c5_ranges stC5 "R" (by decide) rfl rfl

/-- A document with a comment line between the NAME line and the ROWS
header. -/
def mpsDocC6 : String :=
  "NAME          test\n*comment\nROWS\n N  COST\nCOLUMNS\n    X         COST      1.0\nRHS\nENDATA"

/-- C6 counterexample: a comment line placed between the NAME line and the
ROWS header is observed by the section-header check of readRows, so the
parse fails with a SectionMismatch error at line 2 even though the
document is otherwise valid; comment lines are thus not skipped
everywhere, contrary to the claim. -/
theorem c6_counterexample :
    modelFromMps mpsDocC6 "minimize" =
      Except.error (2, "Expected section ROWS but got \x27*comment\x27") := rfl

/-- Helper: the non-comment scanner behind nextLine never returns a line
starting with an asterisk. -/
theorem scanNC_no_comment (l : List String) : ∀ (i j : Nat) (ln : String),
    scanNC l i = some (j, ln) → jsStartsWith ln "*" = false := by
  induction l with
  | nil => intro i j ln h; simp [scanNC] at h
  | cons a rest ih =>
    intro i j ln h
    unfold scanNC at h
    cases hb : jsStartsWith a "*" with
    | true => rw [hb] at h; simp at h; exact ih _ _ _ h
    | false =>
      rw [hb] at h
      simp at h
      rw [← h.2]
      exact hb

/-- C6 amended: every line handed to a section parser by the data-line
cursor nextLine is a non-comment line, so comment lines are invisible
inside section bodies; but a comment line placed between the NAME line
and the ROWS header is read directly by the header check and causes a
SectionMismatch error at its line number. -/
theorem c6_amended :
    (∀ (st st2 : St) (line : String),
        nextLine st = (st2, some line) → jsStartsWith line "*" = false) ∧
    modelFromMps mpsDocC6 "minimize" =
      Except.error (2, "Expected section ROWS but got \x27*comment\x27") := by
  constructor
  · intro st st2 line h
    unfold nextLine at h
    cases hs : scanNC (st.lines.drop (st.index + 1)) (st.index + 1) with
    | none => rw [hs] at h; simp at h
    | some p =>
      obtain ⟨j, l⟩ := p
      rw [hs] at h
      simp at h
      rw [← h.2]
      exact scanNC_no_comment _ _ _ _ hs
  · rfl

/-- An empty model, used by witness states. -/
def emptyModel : Model :=
  { name := "", direction := "", objective := none, constraints := [],
    vars := [], integers := [], binaries := [], bounds := [] }

/-- Witness state before the cursor advance. -/
def stW : St := { lines := ["NAME", "ROWS"], index := 0, constraintTypes := [], model := emptyModel }

/-- Witness state after the cursor advance. -/
def stW2 : St := { lines := ["NAME", "ROWS"], index := 1, constraintTypes := [], model := emptyModel }

/-- C6 witness: the cursor result at a concrete state, where nextLine
yields the line ROWS, which indeed does not start with an asterisk. -/
theorem c6_amended_witness : jsStartsWith "ROWS" "*" = false :=
  c6_amended.1 stW stW2 "ROWS" rfl

/-- A document whose COLUMNS section has two lines for X, one for Y, and
then another line for X, the latter being the tenth line of the file. -/
def mpsDocC7 : String :=
  "NAME          test\nROWS\n N  COST\n L  LIM1\n L  LIM2\nCOLUMNS\n    X         COST      1.0\n    X         LIM1      1.0\n    Y         COST      1.0\n    X         LIM2      1.0\nRHS\nENDATA"

/-- C7: a COLUMNS section holding two lines for column X, then a line for
Y, then another line for X fails with the NonConsecutiveColumn error, and
the 1-based line number reported is 10, the number of the second X line
(the tenth line of the document, as the accompanying conjunct shows). -/
theorem c7_nonconsecutive :
    modelFromMps mpsDocC7 "minimize" =
      Except.error (10, "Values for the column \x27X\x27 were previously provided -- all values for a column must come consecutively") ∧
    (splitLines mpsDocC7).get? 9 = some "    X         LIM2      1.0" ∧
    field2 "    X         LIM2      1.0" = "X" :=
  ⟨rfl, rfl, rfl⟩

/-- The header line of the solution-report scenario. -/
def hdrC8 : String := "Index Lower Upper Primal Dual"

/-- A first data line carrying data below Index, Lower, Upper and Primal
and only blanks below the whole span of Dual (positions 25 to 28; the
line is 29 characters long, covering that span). -/
def dataC8 : String := "0     1     2     3          "

/-- C8: on the header Index Lower Upper Primal Dual and a first data line
that is blank throughout the span of Dual but reaches past it, the
inferred header list contains Index, Lower, Upper and Primal and does not
contain Dual. -/
theorem c8_dual_dropped :
    "Index" ∈ headersForNonEmptyColumns hdrC8 dataC8 ∧
    "Lower" ∈ headersForNonEmptyColumns hdrC8 dataC8 ∧
    "Upper" ∈ headersForNonEmptyColumns hdrC8 dataC8 ∧
    "Primal" ∈ headersForNonEmptyColumns hdrC8 dataC8 ∧
    "Dual" ∉ headersForNonEmptyColumns hdrC8 dataC8 ∧
    hdrMatches hdrC8 = [(0, "Index"), (6, "Lower"), (12, "Upper"), (18, "Primal"), (25, "Dual")] ∧
    (dataC8.data.drop 25).take 4 = [' ', ' ', ' ', ' '] ∧
    dataC8.length = 29 := by decide

/-- C9: a header token whose start offset lies at or beyond the end of the
first data line is kept by headersForNonEmptyColumns, because the
character accesses below it are out of range and an out-of-range access
compares unequal to the blank character. -/
theorem c9_out_of_range_kept (header data : String) (p : Nat × String)
    (hp : p ∈ hdrMatches header) (hlen : data.length ≤ p.1) :
    p.2 ∈ headersForNonEmptyColumns header data := by
  unfold headersForNonEmptyColumns
  refine List.mem_map_of_mem _ ?_
  rw [List.mem_filter]
  refine ⟨hp, ?_⟩
  have hnone : data.data.get? p.1 = none := List.get?_len_le hlen
  have h1 : charAtIs data p.1 ' ' = false := by
    unfold charAtIs
    rw [hnone]
  rw [h1]
  rfl

/-- C9 witness: the token CD of the header AB CD starts at offset 3,
beyond the one-character data line X, and is kept. -/
theorem c9_witness : ("CD" : String) ∈ headersForNonEmptyColumns "AB CD" "X" :=
  c9_out_of_range_kept "AB CD" "X" (3, "CD") (by decide) (by decide)

/-- C10: the second coefficient pair of a COLUMNS data line is skipped
exactly when fields five and six are both empty, and is otherwise handed
to addCoefficient; with field five non-empty and field six empty the line
fails with the MissingCoefficient message, and with field five empty and
field six non-empty it fails with the MissingRowName message, for every
constraint-type registry and accumulator. -/
theorem c10_second_pair (ct : List (String × String)) (varMap : List (String × JsNum))
    (line : String) :
    (field5 line = "" → field6 line = "" → secondPair ct varMap line = Except.ok varMap) ∧
    ((field5 line ≠ "" ∨ field6 line ≠ "") →
      secondPair ct varMap line = addCoefficient ct varMap (field5 line) (field6 line)) ∧
    (field5 line ≠ "" → field6 line = "" →
      secondPair ct varMap line = Except.error "Missing coefficient value") ∧
    (field5 line = "" → field6 line ≠ "" →
      secondPair ct varMap line = Except.error "Missing row name") := by
  refine ⟨?_, ?_, ?_, ?_⟩
  · intro h5 h6
    unfold secondPair
    rw [h5, h6]
    rfl
  · intro h
    unfold secondPair
    rw [if_pos h]
  · intro h5 h6
    unfold secondPair
    rw [if_pos (Or.inl h5)]
    unfold addCoefficient
    rw [if_neg h5, if_pos h6]
  · intro h5 h6
    unfold secondPair
    rw [if_pos (Or.inr h6)]
    unfold addCoefficient
    rw [if_pos h5]

/-- A line whose field five holds LIM1 and whose field six is empty. -/
def lineF5only : String := ⟨List.replicate 39 ' '⟩ ++ "LIM1"

/-- A line whose field five is empty and whose field six holds 1.0. -/
def lineF6only : String := ⟨List.replicate 49 ' '⟩ ++ "1.0"

/-- C10 witness: the three behaviours at concrete lines. -/
theorem c10_second_pair_witness :
    secondPair [] [] "" = Except.ok [] ∧
    secondPair [] [] lineF5only = Except.error "Missing coefficient value" ∧
    secondPair [] [] lineF6only = Except.error "Missing row name" :=
  ⟨(c10_second_pair [] [] "").1 (by decide) (by decide),
   (c10_second_pair [] [] lineF5only).2.2.1 (by decide) (by decide),
   (c10_second_pair [] [] lineF6only).2.2.2 (by decide) (by decide)⟩

end Mps
